import Mathlib

/-!
# Chemistry module: orbital container and OpenQube molecule import

A shallow embedding of `Chemistry/vtkProgrammableElectronicData.cxx`,
`Chemistry/vtkOpenQubeMoleculeSource.cxx` and the pick command and molecule
of `Chemistry/Testing/Cxx/TestMoleculeSelection.cxx`.

Conventions of the embedding.

* A `vtkImageData*` is an `ImagePtr`: `none` is `NULL`, `some g` points at the
  object with identity `g`.  Objects live in an object table (`State.heap`);
  the identity of an object is its position in the table, positions are never
  reused, and an object whose reference count has dropped to zero or below has
  been deleted.
* `vtkIdType` is a signed integer and `std::vector::size()` is unsigned.  In
  a comparison of the two the signed operand is converted to `size_t`, so a
  negative `vtkIdType` compares greater than every vector size (a vector never
  holds more than `max_size()` elements, which is below `2^63`).  The helper
  functions `idEqSize`, `idLtSize`, `idGtSize` and `vecAt` spell this out on
  `Int`/`Nat`.
* Storage for the vector is limited twice: `reserve` throws
  `std::length_error` for a request above `max_size()`, and `std::bad_alloc`
  for a request the allocator cannot serve; the largest number of slots the
  allocator can serve is carried by the state (`State.storage`).  The
  allocation of a single new object always succeeds.
* A member function is a function from the state before the call to the
  outcome (`Except Exn _`: a normal return or a C++ exception leaving the
  function) paired with the state after the call.
* Every call of `Register`, `UnRegister`, `Modified` and of the warning and
  error macros is appended to `State.trace`, in program order.
-/

namespace VTK

/-- Identity of a heap-allocated `vtkImageData` object. -/
abbrev GridId := Nat

/-- A `vtkImageData*`; `none` is the null pointer. -/
abbrev ImagePtr := Option GridId

/-- A `vtkImageData` object as far as the container code can observe it: the
reference count of `vtkObjectBase` and the voxel contents. -/
structure vtkImageData where
  ReferenceCount : Int
  voxels : List Int
  deriving DecidableEq, Repr

/-- C++ exceptions raised by the `std::vector` member functions in use. -/
inductive Exn where
  | out_of_range
  | length_error
  | bad_alloc
  deriving DecidableEq, Repr

/-- Observable calls, recorded in program order. -/
inductive Event where
  | Register (g : GridId)
  | UnRegister (g : GridId)
  | Modified
  | Warning (orbitalNumber : Int) (size : Nat)
  | Error
  deriving DecidableEq, Repr

/-- Data members of a `vtkProgrammableElectronicData` object, with the
modification time of `vtkObject`. -/
structure Container where
  NumberOfElectrons : Int
  MOs : List ImagePtr
  ElectronDensity : ImagePtr
  MTime : Nat
  deriving DecidableEq, Repr

/-- The object `this` together with the object table, the call trace, and the
largest number of vector slots for which the allocator can provide storage. -/
structure State where
  self : Container
  heap : List vtkImageData
  trace : List Event
  storage : Nat
  deriving DecidableEq, Repr

/-- Argument of `DeepCopy(vtkDataObject*)`: the object is a
`vtkProgrammableElectronicData` (or subclass), or some other data object for
which `SafeDownCast` yields `NULL`. -/
inductive vtkDataObject where
  | programmableElectronicData (c : Container)
  | other
  deriving DecidableEq, Repr

/-- The constructor: no electrons, an empty vector, no density. -/
def Container.new : Container :=
  { NumberOfElectrons := 0, MOs := [], ElectronDensity := none, MTime := 0 }

/-! ## Signed index against unsigned size -/

/-- The test `id == v.size()` for a `vtkIdType` against a `size_t`. -/
def idEqSize (id : Int) (n : Nat) : Bool := decide (id = (n : Int))

/-- The test `id < v.size()`: a negative `id` converts to a huge `size_t`. -/
def idLtSize (id : Int) (n : Nat) : Bool := decide (0 ≤ id) && decide (id < (n : Int))

/-- The test `id > v.size()`: a negative `id` converts to a huge `size_t`. -/
def idGtSize (id : Int) (n : Nat) : Bool := decide (id < 0) || decide ((n : Int) < id)

/-- Bounds-checked access `v.at(k)` with `k` computed in `vtkIdType`: throws
`std::out_of_range` unless `0 ≤ k < v.size()`. -/
def vecAt {α : Type} (v : List α) (k : Int) : Except Exn α :=
  if 0 ≤ k then
    match v.get? k.toNat with
    | some x => .ok x
    | none => .error .out_of_range
  else .error .out_of_range

/-- The loop `while (v.size() < size) v.push_back(NULL)`, run for the `k`
iterations that separate the current size from `size`. -/
def pushNulls : Nat → List ImagePtr → List ImagePtr
  | 0, v => v
  | k + 1, v => pushNulls k (v ++ [none])

/-! ## Reference counting (`vtkObjectBase`) -/

/-- Add `d` to the reference count of the object at position `g`. -/
def adjustRef (d : Int) : GridId → List vtkImageData → List vtkImageData
  | _, [] => []
  | 0, o :: os => { o with ReferenceCount := o.ReferenceCount + d } :: os
  | g + 1, o :: os => o :: adjustRef d g os

/-- Reference count of the object at `g` (zero for an address that was never
allocated). -/
def refCount (heap : List vtkImageData) (g : GridId) : Int :=
  match heap.get? g with
  | some o => o.ReferenceCount
  | none => 0

/-- Voxel contents of the object at `g`. -/
def contents (heap : List vtkImageData) (g : GridId) : List Int :=
  match heap.get? g with
  | some o => o.voxels
  | none => []

/-- Modelled from the spec: `vtkObjectBase::Register`, which is not part of
the sources; it takes one reference on the object. -/
def Register (g : GridId) (s : State) : State :=
  { s with heap := adjustRef 1 g s.heap, trace := s.trace ++ [Event.Register g] }

/-- Modelled from the spec: `vtkObjectBase::UnRegister`, which is not part of
the sources; it drops one reference, and the object is freed when that was
the last one (its count is then zero). -/
def UnRegister (g : GridId) (s : State) : State :=
  { s with heap := adjustRef (-1) g s.heap, trace := s.trace ++ [Event.UnRegister g] }

/-- The statement `if (p) p->Register(this);`. -/
def RegisterIfSet (p : ImagePtr) (s : State) : State :=
  match p with
  | some g => Register g s
  | none => s

/-- The statement `if (p) p->UnRegister(this);`. -/
def UnRegisterIfSet (p : ImagePtr) (s : State) : State :=
  match p with
  | some g => UnRegister g s
  | none => s

/-- Modelled from the spec: `vtkObject::Modified`, the mutation notification;
it advances the modification time of `this`. -/
def Modified (s : State) : State :=
  { s with self := { s.self with MTime := s.self.MTime + 1 },
           trace := s.trace ++ [Event.Modified] }

/-- Replace the vector of `this`. -/
def setMOs (v : List ImagePtr) (s : State) : State :=
  { s with self := { s.self with MOs := v } }

namespace vtkProgrammableElectronicData

/-- `GetNumberOfMOs`: the size of the vector as a `vtkIdType`. -/
def GetNumberOfMOs (s : State) : Int := (s.self.MOs.length : Int)

/-- The value of `std::vector<vtkImageData*>::max_size()`: the largest
`ptrdiff_t` divided by the size of a pointer, `2^60 - 1` on a 64-bit
target. -/
def max_size : Nat := 1152921504606846975

/-- The call `this->MOs->reserve(size)` for a `size` above the current size:
`std::length_error` when `size`, converted to `size_t`, exceeds `max_size()`
(every negative `size` does), `std::bad_alloc` when the allocator cannot
provide storage for `size` slots, and no exception otherwise. -/
def reserve (size : Int) (s : State) : Option Exn :=
  if size < 0 ∨ (max_size : Int) < size then some .length_error
  else if s.storage < size.toNat then some .bad_alloc
  else none

/-- `SetNumberOfMOs(size)`.  Equal size: return.  Smaller size:
`resize(size)` on a vector of raw pointers, then `Modified()`.  Otherwise
`reserve(size)`, which can throw, the `push_back(NULL)` loop and
`Modified()`. -/
def SetNumberOfMOs (size : Int) (s : State) : Except Exn Unit × State :=
  if idEqSize size s.self.MOs.length then (.ok (), s)
  else if idLtSize size s.self.MOs.length then
    (.ok (), Modified (setMOs (s.self.MOs.take size.toNat) s))
  else
    match reserve size s with
    | some e => (.error e, s)
    | none =>
      (.ok (), Modified (setMOs (pushNulls (size.toNat - s.self.MOs.length) s.self.MOs) s))

/-- `GetMO(orbitalNumber)`: a warning and `NULL` when the number exceeds the
size, otherwise `this->MOs->at(orbitalNumber - 1)`. -/
def GetMO (orbitalNumber : Int) (s : State) : Except Exn ImagePtr × State :=
  if idGtSize orbitalNumber s.self.MOs.length then
    (.ok none, { s with trace := s.trace ++ [Event.Warning orbitalNumber s.self.MOs.length] })
  else
    match vecAt s.self.MOs (orbitalNumber - 1) with
    | .error e => (.error e, s)
    | .ok result => (.ok result, s)

/-- The part of `SetMO` after the optional growth. -/
def SetMO.store (orbitalNumber : Int) (data : ImagePtr) (s : State) :
    Except Exn Unit × State :=
  match vecAt s.self.MOs (orbitalNumber - 1) with
  | .error e => (.error e, s)
  | .ok previous =>
    if data = previous then (.ok (), s)
    else
      let s1 := setMOs (s.self.MOs.set (orbitalNumber - 1).toNat data) s
      (.ok (), Modified (UnRegisterIfSet previous (RegisterIfSet data s1)))

/-- `SetMO(orbitalNumber, data)`. -/
def SetMO (orbitalNumber : Int) (data : ImagePtr) (s : State) : Except Exn Unit × State :=
  if idGtSize orbitalNumber s.self.MOs.length then
    match SetNumberOfMOs orbitalNumber s with
    | (.error e, s1) => (.error e, s1)
    | (.ok _, s1) => SetMO.store orbitalNumber data s1
  else SetMO.store orbitalNumber data s

/-- Modelled from the spec: `vtkNew<vtkImageData>`, which is not part of the
sources; it creates a new object, with no voxels yet, on which the smart
pointer holds the only reference.  Returns the identity of the new object. -/
def vtkNew (s : State) : GridId × State :=
  (s.heap.length, { s with heap := s.heap ++ [{ ReferenceCount := 1, voxels := [] }] })

/-- Overwrite the voxels of the object at position `g`. -/
def setVoxels (vs : List Int) : GridId → List vtkImageData → List vtkImageData
  | _, [] => []
  | 0, o :: os => { o with voxels := vs } :: os
  | g + 1, o :: os => o :: setVoxels vs g os

/-- Modelled from the spec: `vtkImageData::DeepCopy`, which is not part of
the sources; a full duplication of the data of `src` into `target`. -/
def ImageDeepCopy (target src : GridId) (s : State) : State :=
  { s with heap := setVoxels (contents s.heap src) target s.heap }

/-- Modelled from the spec: `SetElectronDensity`, generated by
`vtkCxxSetObjectMacro`, whose definition is not part of the sources; the
single-slot analogue of `SetMO`, with the same reference-counting
discipline. -/
def SetElectronDensity (data : ImagePtr) (s : State) : State :=
  if s.self.ElectronDensity = data then s
  else
    let previous := s.self.ElectronDensity
    let s1 := { s with self := { s.self with ElectronDensity := data } }
    Modified (UnRegisterIfSet previous (RegisterIfSet data s1))

/-- The loop of `DeepCopy` over `i = 0 .. source->MOs->size() - 1`; the first
argument counts the iterations left.  The `vtkNew` of an iteration is
destroyed (one `UnRegister`) when its scope is left, by the end of the
iteration or by an exception. -/
def DeepCopy.loop (source : Container) : Nat → Nat → State → Except Exn Unit × State
  | 0, _, s => (.ok (), s)
  | k + 1, i, s =>
    match vecAt source.MOs (i : Int) with
    | .error e => (.error e, s)
    | .ok none => DeepCopy.loop source k (i + 1) s
    | .ok (some current) =>
      let s1 := ImageDeepCopy (vtkNew s).1 current (vtkNew s).2
      match SetMO (i : Int) (some (vtkNew s).1) s1 with
      | (.error e, s2) => (.error e, UnRegister (vtkNew s).1 s2)
      | (.ok _, s2) => DeepCopy.loop source k (i + 1) (UnRegister (vtkNew s).1 s2)

/-- `DeepCopy(obj)`, for a source object other than `this`.  The call of the
superclass copies superclass members only (none of the members modelled
here). -/
def DeepCopy (obj : vtkDataObject) (s : State) : Except Exn Unit × State :=
  match obj with
  | .other => (.ok (), { s with trace := s.trace ++ [Event.Error] })
  | .programmableElectronicData source =>
    let s1 := { s with self := { s.self with NumberOfElectrons := source.NumberOfElectrons } }
    match SetNumberOfMOs (source.MOs.length : Int) s1 with
    | (.error e, s2) => (.error e, s2)
    | (.ok _, s2) =>
      match DeepCopy.loop source source.MOs.length 0 s2 with
      | (.error e, s3) => (.error e, s3)
      | (.ok _, s3) =>
        match source.ElectronDensity with
        | none => (.ok (), s3)
        | some density =>
          let s4 := ImageDeepCopy (vtkNew s3).1 density (vtkNew s3).2
          (.ok (), UnRegister (vtkNew s3).1 (SetElectronDensity (some (vtkNew s3).1) s4))

end vtkProgrammableElectronicData

/-! ## Molecule import (`vtkOpenQubeMoleculeSource`) -/

/-- A `double pos[3]`; each coordinate is kept as the bit pattern of the
double, which the importer copies and never computes with. -/
structure Position where
  x : Nat
  y : Nat
  z : Nat
  deriving DecidableEq, Repr

/-- An atom of a `vtkMolecule`: position and atomic number. -/
structure AtomData where
  Position : Position
  AtomicNumber : Nat
  deriving DecidableEq, Repr

/-- A bond of a `vtkMolecule`. -/
structure BondData where
  BeginAtomId : Nat
  EndAtomId : Nat
  BondOrder : Nat
  deriving DecidableEq, Repr

/-- An `OpenQube::BasisSet*` that is not null. -/
abbrev BasisSetId := Nat

/-- A `vtkOpenQubeElectronicData` object: the basis set it is bound to. -/
structure ElectronicData where
  BasisSet : Option BasisSetId
  deriving DecidableEq, Repr

/-- A `vtkMolecule`: atoms and bonds in index order, and the attached
electronic data. -/
structure vtkMolecule where
  Atoms : List AtomData
  Bonds : List BondData
  ElectronicData : Option ElectronicData
  deriving DecidableEq, Repr

/-- The read-only interface of `OpenQube::Molecule` used by the importer.
Its declaration is not part of the sources; the atomic number is taken as
the integer the spec describes. -/
structure OQMolecule where
  numAtoms : Nat
  atomPos : Nat → Position
  atomAtomicNumber : Nat → Nat

/-- The external basis-set library: the two-step lookup (`MatchBasisSet`
writes the name of the matching basis file, empty for no match) and load
(`LoadBasisSet` returns a handle, or null when loading fails), and the
reference molecule of a loaded basis set. -/
structure OpenQube where
  MatchBasisSet : String → String
  LoadBasisSet : String → Option BasisSetId
  moleculeRef : BasisSetId → OQMolecule

/-- Messages of the warning and error macros of `RequestData`. -/
inductive Message where
  | noMoleculeOutput
  | noFileNameOrBasisSet
  | noMatchingBasisSet (fileName : String)
  deriving DecidableEq, Repr

/-- Undefined behaviour met by the importer. -/
inductive Fault where
  | nullBasisSetDereference
  deriving DecidableEq, Repr

/-- Members of a `vtkOpenQubeMoleculeSource` read by `RequestData`. -/
structure MoleculeSource where
  BasisSet : Option BasisSetId
  FileName : Option String
  deriving DecidableEq, Repr

namespace vtkMolecule

/-- Modelled from the spec: `vtkMolecule::Initialize`, which is not part of
the sources; it clears the molecule. -/
def Initialize (_mol : vtkMolecule) : vtkMolecule :=
  { Atoms := [], Bonds := [], ElectronicData := none }

/-- Modelled from the spec: `vtkMolecule::AddAtom()`, which is not part of
the sources; it appends one atom (at the origin, atomic number zero) and
returns its index. -/
def AddAtom (mol : vtkMolecule) : Nat × vtkMolecule :=
  (mol.Atoms.length,
   { mol with Atoms := mol.Atoms ++ [{ Position := { x := 0, y := 0, z := 0 },
                                       AtomicNumber := 0 }] })

/-- Apply `f` to the atom with index `id`. -/
def modifyAtom (f : AtomData → AtomData) : Nat → List AtomData → List AtomData
  | _, [] => []
  | 0, a :: as => f a :: as
  | id + 1, a :: as => a :: modifyAtom f id as

/-- Modelled from the spec: `vtkAtom::SetPosition`, which is not part of the
sources; it sets the position of the atom with index `id`. -/
def SetPosition (id : Nat) (pos : VTK.Position) (mol : vtkMolecule) : vtkMolecule :=
  { mol with Atoms := modifyAtom (fun a => { a with Position := pos }) id mol.Atoms }

/-- Modelled from the spec: `vtkAtom::SetAtomicNumber`, which is not part of
the sources; it sets the atomic number of the atom with index `id`. -/
def SetAtomicNumber (id : Nat) (atomicNum : Nat) (mol : vtkMolecule) : vtkMolecule :=
  { mol with Atoms := modifyAtom (fun a => { a with AtomicNumber := atomicNum }) id mol.Atoms }

/-- Modelled from the spec: `vtkMolecule::SetElectronicData`, which is not
part of the sources; it replaces the attachment. -/
def SetElectronicData (ed : Option VTK.ElectronicData) (mol : vtkMolecule) : vtkMolecule :=
  { mol with ElectronicData := ed }

end vtkMolecule

namespace vtkOpenQubeMoleculeSource

/-- The loop of `CopyOQMoleculeToVtkMolecule` over
`i = 0 .. oqmol->numAtoms() - 1`; the first argument counts the iterations
left. -/
def CopyOQMoleculeToVtkMolecule.loop (oqmol : OQMolecule) : Nat → Nat → vtkMolecule → vtkMolecule
  | 0, _, mol => mol
  | k + 1, i, mol =>
    let atom := (vtkMolecule.AddAtom mol).1
    let m1 := (vtkMolecule.AddAtom mol).2
    let m2 := vtkMolecule.SetPosition atom (oqmol.atomPos i) m1
    let m3 := vtkMolecule.SetAtomicNumber atom (oqmol.atomAtomicNumber i) m2
    CopyOQMoleculeToVtkMolecule.loop oqmol k (i + 1) m3

/-- `CopyOQMoleculeToVtkMolecule(oqmol, mol)`: `mol->Initialize()`, then one
atom per source atom. -/
def CopyOQMoleculeToVtkMolecule (oqmol : OQMolecule) (mol : vtkMolecule) : vtkMolecule :=
  CopyOQMoleculeToVtkMolecule.loop oqmol oqmol.numAtoms 0 (vtkMolecule.Initialize mol)

/-- What a call of `RequestData` leaves behind: the return value, the output
data object and the messages issued. -/
structure Outcome where
  ret : Int
  output : Option vtkMolecule
  messages : List Message
  deriving DecidableEq, Repr

/-- The tail of `RequestData` from `basisSet->moleculeRef()` on.  The
pointer is dereferenced without a test. -/
def RequestData.populate (oq : OpenQube) (basisSet : Option BasisSetId) (output : vtkMolecule) :
    Except Fault Outcome :=
  match basisSet with
  | none => .error .nullBasisSetDereference
  | some b =>
    let mol := CopyOQMoleculeToVtkMolecule (oq.moleculeRef b) output
    .ok { ret := 1,
          output := some (vtkMolecule.SetElectronicData (some { BasisSet := some b }) mol),
          messages := [] }

/-- `RequestData`: `output` is the data object of the output vector after
`SafeDownCast` (`none` when it is not a `vtkMolecule`). -/
def RequestData (oq : OpenQube) (self : MoleculeSource) (output : Option vtkMolecule) :
    Except Fault Outcome :=
  match output with
  | none => .ok { ret := 1, output := none, messages := [.noMoleculeOutput] }
  | some out =>
    match self.BasisSet with
    | some b => RequestData.populate oq (some b) out
    | none =>
      match self.FileName with
      | none => .ok { ret := 1, output := some out, messages := [.noFileNameOrBasisSet] }
      | some fileName =>
        let basisName := oq.MatchBasisSet fileName
        if basisName.isEmpty then
          .ok { ret := 1, output := some out, messages := [.noMatchingBasisSet fileName] }
        else RequestData.populate oq (oq.LoadBasisSet basisName) out

end vtkOpenQubeMoleculeSource

end VTK

/-! ## Sharing of grid objects between two containers -/

namespace VTK

/-- The grid objects a container points at: the non-null orbital slots and
the non-null electron-density slot. -/
def Container.grids (c : Container) : List GridId :=
  c.MOs.reduceOption ++ c.ElectronDensity.toList

/-- Some grid object is stored (in an orbital slot or the density slot) by
both containers. -/
def sharesGrid (a b : Container) : Prop := ∃ g ∈ a.grids, g ∈ b.grids

instance (a b : Container) : Decidable (sharesGrid a b) := by
  unfold sharesGrid
  infer_instance

end VTK

/-! ## Concrete states used to evaluate the code -/

namespace VTK

namespace Fixture

/-- One grid object, referenced once, with three voxels. -/
def oneGrid : List vtkImageData := [{ ReferenceCount := 1, voxels := [7, 8, 9] }]

/-- Two grid objects, each referenced once. -/
def twoGrids : List vtkImageData :=
  [{ ReferenceCount := 1, voxels := [7, 8, 9] }, { ReferenceCount := 1, voxels := [4, 5] }]

/-- A container with three slots: grid 0, empty, grid 1. -/
def threeSlots : State :=
  { self := { NumberOfElectrons := 2, MOs := [some 0, none, some 1],
              ElectronDensity := none, MTime := 0 },
    heap := twoGrids, trace := [], storage := 1024 }

/-- A container with one slot, holding grid 0 on which it has the only
reference. -/
def oneSlot : State :=
  { self := { NumberOfElectrons := 2, MOs := [some 0], ElectronDensity := none, MTime := 0 },
    heap := oneGrid, trace := [], storage := 1024 }

/-- A destination that holds nothing, next to one live grid. -/
def emptyDest : State :=
  { self := Container.new, heap := oneGrid, trace := [], storage := 1024 }

/-- A source whose slot 1 is empty and whose slot 2 holds grid 0. -/
def secondSlotSource : Container :=
  { NumberOfElectrons := 2, MOs := [none, some 0], ElectronDensity := none, MTime := 0 }

/-- A source whose slot 1 holds grid 0. -/
def firstSlotSource : Container :=
  { NumberOfElectrons := 2, MOs := [some 0], ElectronDensity := none, MTime := 0 }

/-- A source with one empty orbital slot and grid 0 as electron density. -/
def densitySource : Container :=
  { NumberOfElectrons := 2, MOs := [none], ElectronDensity := some 0, MTime := 0 }

/-- A destination whose slot 1 holds grid 0, the grid that `densitySource`
has as its density; the grid is referenced by both. -/
def sharingDest : State :=
  { self := { NumberOfElectrons := 0, MOs := [some 0], ElectronDensity := none, MTime := 0 },
    heap := [{ ReferenceCount := 2, voxels := [7, 8, 9] }], trace := [], storage := 1024 }

/-- A source with grid 0 in slot 2 and grid 1 as electron density. -/
def fullSource : Container :=
  { NumberOfElectrons := 2, MOs := [none, some 0], ElectronDensity := some 1, MTime := 0 }

/-- A fresh destination next to the two grids of `fullSource`. -/
def freshDest : State :=
  { self := Container.new, heap := twoGrids, trace := [], storage := 1024 }

/-- A reference molecule with two atoms. -/
def water : OQMolecule :=
  { numAtoms := 2,
    atomPos := fun i => { x := i, y := i + 1, z := i + 2 },
    atomAtomicNumber := fun i => i + 6 }

/-- A basis-set library that finds a basis file for `a.out` only and fails
to load every file. -/
def failingLoader : OpenQube :=
  { MatchBasisSet := fun f => if f = "a.out" then "a.aux" else "",
    LoadBasisSet := fun _ => none,
    moleculeRef := fun _ => water }

/-- An output molecule with one atom, one bond and no electronic data. -/
def oldOutput : vtkMolecule :=
  { Atoms := [{ Position := { x := 9, y := 9, z := 9 }, AtomicNumber := 1 }],
    Bonds := [{ BeginAtomId := 0, EndAtomId := 0, BondOrder := 1 }],
    ElectronicData := none }

end Fixture

end VTK

/-! ## Molecule selection (`Testing/Cxx/TestMoleculeSelection.cxx`) -/

namespace VTK

/-- The double `0.0` as a bit pattern. -/
def double0 : Nat := 0x0000000000000000

/-- The double `1.0` as a bit pattern. -/
def double1 : Nat := 0x3FF0000000000000

/-- The double `2.0` as a bit pattern. -/
def double2 : Nat := 0x4000000000000000

/-- The double `3.0` as a bit pattern. -/
def double3 : Nat := 0x4008000000000000

/-- The identifier of a rendered point as the molecule mapper encodes it: a
point drawn for an atom, a point drawn for a bond, or a point that this
mapper did not produce. -/
inductive RenderedId where
  | atom (index : Nat)
  | bond (index : Nat)
  | foreign (id : Nat)
  deriving DecidableEq, Repr

namespace vtkMolecule

/-- Modelled from the spec: the molecule made by `vtkNew<vtkMolecule>`, whose
constructor is not part of the sources; no atoms, no bonds, no electronic
data. -/
def new : vtkMolecule := { Atoms := [], Bonds := [], ElectronicData := none }

/-- Modelled from the spec: `vtkMolecule::AddAtom(atomicNumber, x, y, z)`,
which is not part of the sources; it appends one atom and returns its index
(insertion order is index order). -/
def AddAtomAt (atomicNumber x y z : Nat) (mol : vtkMolecule) : Nat × vtkMolecule :=
  (mol.Atoms.length,
   { mol with Atoms := mol.Atoms ++ [{ Position := { x := x, y := y, z := z },
                                       AtomicNumber := atomicNumber }] })

/-- Modelled from the spec: `vtkMolecule::AddBond(atom1, atom2, order)`,
which is not part of the sources; it appends one bond and returns its
index. -/
def AddBond (atom1 atom2 order : Nat) (mol : vtkMolecule) : Nat × vtkMolecule :=
  (mol.Bonds.length,
   { mol with Bonds := mol.Bonds ++ [{ BeginAtomId := atom1, EndAtomId := atom2,
                                       BondOrder := order }] })

end vtkMolecule

namespace vtkMoleculeMapper

/-- Insert an index into an ascending sequence without repeating it. -/
def insertAscending (k : Nat) : List Nat → List Nat
  | [] => [k]
  | x :: xs =>
    if k < x then k :: x :: xs
    else if k = x then x :: xs
    else x :: insertAscending k xs

/-- The indices of a sequence in ascending order, each once. -/
def ascendingOnce (l : List Nat) : List Nat := l.foldr insertAscending []

/-- The atom index a rendered point stands for, when the point belongs to an
atom of the current molecule. -/
def atomOf (mol : vtkMolecule) : RenderedId → Option Nat
  | .atom i => if i < mol.Atoms.length then some i else none
  | _ => none

/-- The bond index a rendered point stands for, when the point belongs to a
bond of the current molecule. -/
def bondOf (mol : vtkMolecule) : RenderedId → Option Nat
  | .bond i => if i < mol.Bonds.length then some i else none
  | _ => none

/-- Modelled from the spec: `vtkMoleculeMapper::GetSelectedAtomsAndBonds`,
which is not part of the sources; from a raw selection of rendered point
identifiers it yields the selected atom indices and the selected bond
indices, each deduplicated and in ascending order, restricted to the
identifiers the mapper produced for the current molecule. -/
def GetSelectedAtomsAndBonds (mol : vtkMolecule) (sel : List RenderedId) :
    List Nat × List Nat :=
  (ascendingOnce (sel.filterMap (atomOf mol)), ascendingOnce (sel.filterMap (bondOf mol)))

end vtkMoleculeMapper

namespace TestMoleculeSelection

/-- Calls made by the pick command, in program order. -/
inductive PickCall where
  | Select (x1 y1 x2 y2 : Nat)
  | GetSelectedAtomsAndBonds (sel : List RenderedId)
  deriving DecidableEq, Repr

/-- What one call of `dumpMolSelection` writes to `cerr`: the atom ids and,
for every bond id, the bond id with its begin and end atom. -/
structure Dump where
  atoms : List Nat
  bonds : List (Nat × Nat × Nat)
  deriving DecidableEq, Repr

/-- The globals `atomIds` and `bondIds` of the test, with the calls made and
the text written so far. -/
structure PickState where
  atomIds : List Nat
  bondIds : List Nat
  calls : List PickCall
  cerr : List Dump
  deriving DecidableEq, Repr

/-- What the pick command reads from its collaborators, none of which is
part of the sources: the number of items of `Picker->GetProp3Ds()`, the pick
rectangle of the renderer after `static_cast<unsigned int>`, the result of
`vtkHardwareSelector::Select()` for an area, and the input molecule of the
mapper. -/
structure PickScene where
  NumberOfItems : Nat
  PickX1 : Nat
  PickY1 : Nat
  PickX2 : Nat
  PickY2 : Nat
  Select : Nat → Nat → Nat → Nat → List RenderedId
  mol : vtkMolecule

/-- The line of the dump for one bond id: `bond.GetId()`,
`bond.GetBeginAtomId()`, `bond.GetEndAtomId()` of `mol->GetBond(id)`. -/
def dumpBond (mol : vtkMolecule) (id : Nat) : Option (Nat × Nat × Nat) :=
  match mol.Bonds.get? id with
  | some b => some (id, b.BeginAtomId, b.EndAtomId)
  | none => none

/-- `dumpMolSelection(sel, molMap)`: the mapper fills `atomIds` and `bondIds`
from the selection, then both are printed. -/
def dumpMolSelection (mol : vtkMolecule) (sel : List RenderedId) (st : PickState) : PickState :=
  let picked := vtkMoleculeMapper.GetSelectedAtomsAndBonds mol sel
  { atomIds := picked.1,
    bondIds := picked.2,
    calls := st.calls ++ [PickCall.GetSelectedAtomsAndBonds sel],
    cerr := st.cerr ++ [{ atoms := picked.1, bonds := picked.2.filterMap (dumpBond mol) }] }

/-- `MoleculePickCommand::Execute`: when the area picker holds at least one
prop, a hardware selection over the pick rectangle of the renderer is made
and handed to `dumpMolSelection`; otherwise nothing is done. -/
def Execute (scene : PickScene) (st : PickState) : PickState :=
  if scene.NumberOfItems ≠ 0 then
    let sel := scene.Select scene.PickX1 scene.PickY1 scene.PickX2 scene.PickY2
    dumpMolSelection scene.mol sel
      { st with calls := st.calls ++
          [PickCall.Select scene.PickX1 scene.PickY1 scene.PickX2 scene.PickY2] }
  else st

/-- The molecule built by lines 138 to 179 of the test: sixteen `AddAtom`
calls, then twenty-four `AddBond` calls, in source order. -/
def molecule : vtkMolecule :=
  let mol := vtkMolecule.new
  let (a1, mol) := vtkMolecule.AddAtomAt 1 double0 double0 double0 mol
  let (a2, mol) := vtkMolecule.AddAtomAt 2 double0 double1 double0 mol
  let (a3, mol) := vtkMolecule.AddAtomAt 3 double0 double2 double0 mol
  let (a4, mol) := vtkMolecule.AddAtomAt 4 double0 double3 double0 mol
  let (a5, mol) := vtkMolecule.AddAtomAt 5 double1 double0 double0 mol
  let (a6, mol) := vtkMolecule.AddAtomAt 6 double1 double1 double0 mol
  let (a7, mol) := vtkMolecule.AddAtomAt 7 double1 double2 double0 mol
  let (a8, mol) := vtkMolecule.AddAtomAt 8 double1 double3 double0 mol
  let (a9, mol) := vtkMolecule.AddAtomAt 9 double2 double0 double0 mol
  let (a10, mol) := vtkMolecule.AddAtomAt 10 double2 double1 double0 mol
  let (a11, mol) := vtkMolecule.AddAtomAt 11 double2 double2 double0 mol
  let (a12, mol) := vtkMolecule.AddAtomAt 12 double2 double3 double0 mol
  let (a13, mol) := vtkMolecule.AddAtomAt 13 double3 double0 double0 mol
  let (a14, mol) := vtkMolecule.AddAtomAt 14 double3 double1 double0 mol
  let (a15, mol) := vtkMolecule.AddAtomAt 15 double3 double2 double0 mol
  let (a16, mol) := vtkMolecule.AddAtomAt 16 double3 double3 double0 mol
  let (_, mol) := vtkMolecule.AddBond a1 a2 1 mol
  let (_, mol) := vtkMolecule.AddBond a2 a3 1 mol
  let (_, mol) := vtkMolecule.AddBond a3 a4 1 mol
  let (_, mol) := vtkMolecule.AddBond a5 a6 1 mol
  let (_, mol) := vtkMolecule.AddBond a6 a7 1 mol
  let (_, mol) := vtkMolecule.AddBond a7 a8 1 mol
  let (_, mol) := vtkMolecule.AddBond a9 a10 1 mol
  let (_, mol) := vtkMolecule.AddBond a10 a11 1 mol
  let (_, mol) := vtkMolecule.AddBond a11 a12 1 mol
  let (_, mol) := vtkMolecule.AddBond a13 a14 1 mol
  let (_, mol) := vtkMolecule.AddBond a14 a15 1 mol
  let (_, mol) := vtkMolecule.AddBond a15 a16 1 mol
  let (_, mol) := vtkMolecule.AddBond a1 a5 1 mol
  let (_, mol) := vtkMolecule.AddBond a2 a6 1 mol
  let (_, mol) := vtkMolecule.AddBond a3 a7 1 mol
  let (_, mol) := vtkMolecule.AddBond a4 a8 1 mol
  let (_, mol) := vtkMolecule.AddBond a5 a9 1 mol
  let (_, mol) := vtkMolecule.AddBond a6 a10 1 mol
  let (_, mol) := vtkMolecule.AddBond a7 a11 1 mol
  let (_, mol) := vtkMolecule.AddBond a8 a12 1 mol
  let (_, mol) := vtkMolecule.AddBond a9 a13 1 mol
  let (_, mol) := vtkMolecule.AddBond a10 a14 1 mol
  let (_, mol) := vtkMolecule.AddBond a11 a15 1 mol
  let (_, mol) := vtkMolecule.AddBond a12 a16 1 mol
  mol

/-- An atom of the lower-left quadrant of the grid: its x and y coordinates
are both `0.0` or `1.0`. -/
def inLowerLeftQuadrant (a : AtomData) : Bool :=
  (decide (a.Position.x = double0) || decide (a.Position.x = double1)) &&
  (decide (a.Position.y = double0) || decide (a.Position.y = double1))

/-- The atom with index `i` lies in the lower-left quadrant. -/
def atomInQuadrant (mol : vtkMolecule) (i : Nat) : Bool :=
  match mol.Atoms.get? i with
  | some a => inLowerLeftQuadrant a
  | none => false

/-- The bond with index `j` has at least one end atom in the lower-left
quadrant. -/
def bondTouchesQuadrant (mol : vtkMolecule) (j : Nat) : Bool :=
  match mol.Bonds.get? j with
  | some b => atomInQuadrant mol b.BeginAtomId || atomInQuadrant mol b.EndAtomId
  | none => false

/-- `EXIT_SUCCESS`. -/
def EXIT_SUCCESS : Int := 0

/-- `EXIT_FAILURE`. -/
def EXIT_FAILURE : Int := 1

/-- `array->GetValue(i)`; a read past the end of the array, undefined in C++,
yields `none` and so counts as a mismatch in `verifyPick`. -/
def GetValue (array : List Nat) (i : Nat) : Option Nat := array.get? i

/-- The check of lines 232 to 248: the first four atom ids and the first
eight bond ids against the expected values. -/
def verifyPick (st : PickState) : Int :=
  if GetValue st.atomIds 0 ≠ some 0 ∨
     GetValue st.atomIds 1 ≠ some 1 ∨
     GetValue st.atomIds 2 ≠ some 4 ∨
     GetValue st.atomIds 3 ≠ some 5 ∨
     GetValue st.bondIds 0 ≠ some 0 ∨
     GetValue st.bondIds 1 ≠ some 1 ∨
     GetValue st.bondIds 2 ≠ some 3 ∨
     GetValue st.bondIds 3 ≠ some 4 ∨
     GetValue st.bondIds 4 ≠ some 12 ∨
     GetValue st.bondIds 5 ≠ some 13 ∨
     GetValue st.bondIds 6 ≠ some 16 ∨
     GetValue st.bondIds 7 ≠ some 17 then EXIT_FAILURE
  else EXIT_SUCCESS

end TestMoleculeSelection

end VTK

/-! ## Lemmas on the vector helpers -/

namespace VTK

open vtkProgrammableElectronicData

theorem pushNulls_eq (k : Nat) (v : List ImagePtr) :
    pushNulls k v = v ++ List.replicate k none := by
  induction k generalizing v with
  | zero => simp [pushNulls]
  | succ k ih =>
    rw [pushNulls, ih, List.append_assoc]
    congr 1

theorem vecAt_pred {α : Type} (v : List α) (k : Nat) :
    vecAt v (((k + 1 : Nat) : Int) - 1) =
      match v.get? k with
      | some x => .ok x
      | none => .error .out_of_range := by
  have h : ((k + 1 : Nat) : Int) - 1 = (k : Int) := by omega
  simp [vecAt, h]

theorem pos_int_eq_succ (i : Int) (hi : 1 ≤ i) : ∃ k : Nat, i = ((k + 1 : Nat) : Int) :=
  ⟨(i - 1).toNat, by omega⟩

theorem getMO_succ (s : State) (k : Nat) :
    GetMO ((k + 1 : Nat) : Int) s =
      match s.self.MOs.get? k with
      | some p => (.ok p, s)
      | none => (.ok none,
          { s with trace := s.trace ++ [Event.Warning ((k + 1 : Nat) : Int) s.self.MOs.length] }) := by
  unfold GetMO idGtSize
  by_cases h : k < s.self.MOs.length
  · have h1 : ¬ ((s.self.MOs.length : Int) < ((k + 1 : Nat) : Int)) := by omega
    have h2 : ¬ (((k + 1 : Nat) : Int) < 0) := by omega
    rw [vecAt_pred]
    simp only [h1, h2, decide_False, Bool.or_self, Bool.false_eq_true, if_false]
    rw [List.get?_eq_get h]
  · have h1 : (s.self.MOs.length : Int) < ((k + 1 : Nat) : Int) := by omega
    have h3 : s.self.MOs.get? k = none := List.get?_eq_none.mpr (by omega)
    simp only [h1, decide_True, Bool.or_true, if_true, h3]

theorem setMO_store_succ (s : State) (k : Nat) (data p : ImagePtr)
    (h : s.self.MOs.get? k = some p) :
    SetMO.store ((k + 1 : Nat) : Int) data s =
      if data = p then (.ok (), s)
      else (.ok (), Modified (UnRegisterIfSet p (RegisterIfSet data
              (setMOs (s.self.MOs.set k data) s)))) := by
  unfold SetMO.store
  rw [vecAt_pred, h]
  have h1 : (((k + 1 : Nat) : Int) - 1).toNat = k := by omega
  simp only [h1]

theorem setMO_succ_existing (s : State) (k : Nat) (data p : ImagePtr)
    (h : s.self.MOs.get? k = some p) :
    SetMO ((k + 1 : Nat) : Int) data s =
      if data = p then (.ok (), s)
      else (.ok (), Modified (UnRegisterIfSet p (RegisterIfSet data
              (setMOs (s.self.MOs.set k data) s)))) := by
  have hk : k < s.self.MOs.length := by
    by_contra hc
    rw [List.get?_eq_none.mpr (by omega)] at h
    cases h
  have h1 : ¬ ((s.self.MOs.length : Int) < ((k + 1 : Nat) : Int)) := by omega
  have h2 : ¬ (((k + 1 : Nat) : Int) < 0) := by omega
  unfold SetMO idGtSize
  simp only [h1, h2, decide_False, Bool.or_self, Bool.false_eq_true, if_false]
  exact setMO_store_succ s k data p h

/-! ## Frame lemmas for the reference-counting calls -/

@[simp] theorem Modified_MOs (s : State) : (Modified s).self.MOs = s.self.MOs := rfl
@[simp] theorem Modified_density (s : State) :
    (Modified s).self.ElectronDensity = s.self.ElectronDensity := rfl
@[simp] theorem Modified_heap (s : State) : (Modified s).heap = s.heap := rfl
@[simp] theorem Modified_trace (s : State) :
    (Modified s).trace = s.trace ++ [Event.Modified] := rfl
@[simp] theorem setMOs_MOs (v : List ImagePtr) (s : State) : (setMOs v s).self.MOs = v := rfl
@[simp] theorem setMOs_density (v : List ImagePtr) (s : State) :
    (setMOs v s).self.ElectronDensity = s.self.ElectronDensity := rfl
@[simp] theorem setMOs_heap (v : List ImagePtr) (s : State) : (setMOs v s).heap = s.heap := rfl
@[simp] theorem setMOs_trace (v : List ImagePtr) (s : State) :
    (setMOs v s).trace = s.trace := rfl

@[simp] theorem RegisterIfSet_self (p : ImagePtr) (s : State) :
    (RegisterIfSet p s).self = s.self := by
  cases p <;> rfl

@[simp] theorem UnRegisterIfSet_self (p : ImagePtr) (s : State) :
    (UnRegisterIfSet p s).self = s.self := by
  cases p <;> rfl

end VTK

namespace VTK

open vtkProgrammableElectronicData

/-! ## Reference counts after `Register` and `UnRegister` -/

theorem adjustRef_length (d : Int) (g : GridId) (h : List vtkImageData) :
    (adjustRef d g h).length = h.length := by
  induction h generalizing g with
  | nil => cases g <;> rfl
  | cons o os ih =>
    cases g with
    | zero => rfl
    | succ g => simp [adjustRef, ih]

theorem refCount_adjustRef (d : Int) (g : GridId) (h : List vtkImageData) (x : GridId) :
    refCount (adjustRef d g h) x =
      refCount h x + (if x = g ∧ g < h.length then d else 0) := by
  induction h generalizing g x with
  | nil => cases g <;> simp [adjustRef, refCount]
  | cons o os ih =>
    cases g with
    | zero =>
      cases x with
      | zero => simp [adjustRef, refCount]
      | succ x => simp [adjustRef, refCount]
    | succ g =>
      cases x with
      | zero => simp [adjustRef, refCount]
      | succ x =>
        have := ih g x
        simp only [refCount, List.get?_cons_succ] at this
        simp only [adjustRef, refCount, List.get?_cons_succ, this, List.length_cons,
          Nat.succ_lt_succ_iff, Nat.succ.injEq]

theorem RegisterIfSet_trace (p : ImagePtr) (s : State) :
    (RegisterIfSet p s).trace = s.trace ++ p.toList.map Event.Register := by
  cases p <;> simp [RegisterIfSet, Register]

theorem UnRegisterIfSet_trace (p : ImagePtr) (s : State) :
    (UnRegisterIfSet p s).trace = s.trace ++ p.toList.map Event.UnRegister := by
  cases p <;> simp [UnRegisterIfSet, UnRegister]

theorem RegisterIfSet_heap_length (p : ImagePtr) (s : State) :
    (RegisterIfSet p s).heap.length = s.heap.length := by
  cases p <;> simp [RegisterIfSet, Register, adjustRef_length]

theorem refCount_RegisterIfSet (p : ImagePtr) (s : State) (x : GridId)
    (hv : ∀ y, p = some y → y < s.heap.length) :
    refCount (RegisterIfSet p s).heap x = refCount s.heap x + (if p = some x then 1 else 0) := by
  cases p with
  | none => simp [RegisterIfSet]
  | some y =>
    have hy := hv y rfl
    simp only [RegisterIfSet, Register, refCount_adjustRef, hy, and_true, Option.some.injEq]
    by_cases hxy : x = y
    · simp [hxy]
    · have : ¬ y = x := fun h => hxy h.symm
      simp [hxy, this]

theorem refCount_UnRegisterIfSet (p : ImagePtr) (s : State) (x : GridId)
    (hv : ∀ y, p = some y → y < s.heap.length) :
    refCount (UnRegisterIfSet p s).heap x = refCount s.heap x - (if p = some x then 1 else 0) := by
  cases p with
  | none => simp [UnRegisterIfSet]
  | some y =>
    have hy := hv y rfl
    simp only [UnRegisterIfSet, UnRegister, refCount_adjustRef, hy, and_true, Option.some.injEq]
    by_cases hxy : x = y
    · simp [hxy]; omega
    · have : ¬ y = x := fun h => hxy h.symm
      simp [hxy, this]

end VTK

namespace VTK

open vtkProgrammableElectronicData

/-! ## The orbital container: claims on `SetNumberOfMOs`, `GetMO`, `SetMO` -/

/-- C3: for a 1-based index `i ≥ 1`, `GetMO(i)` past the orbital count issues
the out-of-range warning and returns `NULL`; within the count it returns
exactly the pointer stored in slot `i` and issues nothing; either way the
container members and every reference count are what they were. -/
theorem getMO_range_contract (s : State) (i : Int) (hi : 1 ≤ i) :
    (GetNumberOfMOs s < i →
      GetMO i s = (.ok none,
        { s with trace := s.trace ++ [Event.Warning i s.self.MOs.length] })) ∧
    (i ≤ GetNumberOfMOs s →
      ∃ p, s.self.MOs.get? (i - 1).toNat = some p ∧ GetMO i s = (.ok p, s)) ∧
    (GetMO i s).2.self = s.self ∧ (GetMO i s).2.heap = s.heap := by
  obtain ⟨k, rfl⟩ := pos_int_eq_succ i hi
  have hk : (((k + 1 : Nat) : Int) - 1).toNat = k := by omega
  rw [getMO_succ, hk]
  unfold GetNumberOfMOs
  by_cases h : k < s.self.MOs.length
  · obtain ⟨p, hp⟩ : ∃ p, s.self.MOs.get? k = some p := ⟨_, List.get?_eq_get h⟩
    rw [hp]
    refine ⟨fun hlt => ?_, fun _ => ⟨p, rfl, rfl⟩, rfl, rfl⟩
    omega
  · have hn : s.self.MOs.get? k = none := List.get?_eq_none.mpr (by omega)
    rw [hn]
    refine ⟨fun _ => rfl, fun hle => ?_, rfl, rfl⟩
    omega

/-- Witness for C3: three slots, `GetMO(5)` warns, returns `NULL`, and the
count stays 3. -/
theorem getMO_range_contract_witness :
    (1 : Int) ≤ 5 ∧
    GetMO 5 Fixture.threeSlots =
      (.ok none, { Fixture.threeSlots with trace := [Event.Warning 5 3] }) ∧
    GetNumberOfMOs (GetMO 5 Fixture.threeSlots).2 = 3 :=
  ⟨by decide, (getMO_range_contract Fixture.threeSlots 5 (by decide)).1 (by decide), by rfl⟩

/-- C6: for an existing slot `i ≥ 1` whose current occupant is `g` (`NULL`
included), `SetMO(i, g)` returns normally and leaves the whole state as it
was: the vector, the count, every reference count, the modification time,
and the trace (no `Register`, `UnRegister` or `Modified` call). -/
theorem setMO_same_occupant_noop (s : State) (i : Int) (g : ImagePtr) (hi : 1 ≤ i)
    (hg : s.self.MOs.get? (i - 1).toNat = some g) :
    SetMO i g s = (.ok (), s) := by
  obtain ⟨k, rfl⟩ := pos_int_eq_succ i hi
  have hk : (((k + 1 : Nat) : Int) - 1).toNat = k := by omega
  rw [hk] at hg
  rw [setMO_succ_existing s k g g hg]
  simp

/-- Witness for C6: slot 3 of the three-slot container holds grid 1. -/
theorem setMO_same_occupant_noop_witness :
    (1 : Int) ≤ 3 ∧ Fixture.threeSlots.self.MOs.get? ((3 : Int) - 1).toNat = some (some 1) ∧
    SetMO 3 (some 1) Fixture.threeSlots = (.ok (), Fixture.threeSlots) :=
  ⟨by decide, by rfl, setMO_same_occupant_noop Fixture.threeSlots 3 (some 1) (by decide) (by rfl)⟩

/-- C7: for an existing slot `i ≥ 1` with occupant `p` and a pointer `g ≠ p`
(both `NULL` or pointing at allocated objects), `SetMO(i, g)` appends to the
trace exactly: one `Register` on `g` when `g` is not `NULL`, then one
`UnRegister` on `p` when `p` is not `NULL`, then `Modified`; the reference
count of `g` goes up by one, that of `p` down by one, and no other count
changes. -/
theorem setMO_reference_exchange (s : State) (i : Int) (g p : ImagePtr) (hi : 1 ≤ i)
    (hp : s.self.MOs.get? (i - 1).toNat = some p) (hne : g ≠ p)
    (hgv : ∀ x, g = some x → x < s.heap.length)
    (hpv : ∀ x, p = some x → x < s.heap.length) :
    (SetMO i g s).1 = .ok () ∧
    (SetMO i g s).2.trace =
      s.trace ++ g.toList.map Event.Register ++ p.toList.map Event.UnRegister
        ++ [Event.Modified] ∧
    (∀ x : GridId, refCount (SetMO i g s).2.heap x =
      refCount s.heap x + (if g = some x then 1 else 0) - (if p = some x then 1 else 0)) := by
  obtain ⟨k, rfl⟩ := pos_int_eq_succ i hi
  have hk : (((k + 1 : Nat) : Int) - 1).toNat = k := by omega
  rw [hk] at hp
  rw [setMO_succ_existing s k g p hp]
  simp only [hne, if_false, Modified_trace, Modified_heap, true_and]
  refine ⟨?_, fun x => ?_⟩
  · rw [UnRegisterIfSet_trace, RegisterIfSet_trace, setMOs_trace]
  · rw [refCount_UnRegisterIfSet _ _ _ (by rw [RegisterIfSet_heap_length]; exact hpv),
      refCount_RegisterIfSet _ _ _ (by rw [setMOs_heap]; exact hgv), setMOs_heap]

/-- Witness for C7: slot 1 of the three-slot container holds grid 0 and is
set to grid 1. -/
theorem setMO_reference_exchange_witness :
    (1 : Int) ≤ 1 ∧
    (SetMO 1 (some 1) Fixture.threeSlots).2.trace =
      [Event.Register 1, Event.UnRegister 0, Event.Modified] ∧
    refCount (SetMO 1 (some 1) Fixture.threeSlots).2.heap 1 = 2 ∧
    refCount (SetMO 1 (some 1) Fixture.threeSlots).2.heap 0 = 0 :=
  ⟨by decide,
    (setMO_reference_exchange Fixture.threeSlots 1 (some 1) (some 0) (by decide) (by rfl)
      (by decide) (by intro x hx; cases hx; decide) (by intro x hx; cases hx; decide)).2.1,
    by rfl, by rfl⟩

end VTK

namespace VTK

open vtkProgrammableElectronicData

/-! ## Frame lemmas for `DeepCopy` -/

theorem mem_grids (c : Container) (g : GridId) :
    g ∈ c.grids ↔ some g ∈ c.MOs ∨ c.ElectronDensity = some g := by
  unfold Container.grids
  rw [List.mem_append, List.reduceOption_mem_iff, Option.mem_toList]
  rfl

theorem setNumberOfMOs_frame (n : Int) (s : State) :
    (SetNumberOfMOs n s).2.heap = s.heap ∧
    (SetNumberOfMOs n s).2.self.ElectronDensity = s.self.ElectronDensity ∧
    (∀ x ∈ (SetNumberOfMOs n s).2.self.MOs, x ∈ s.self.MOs ∨ x = none) := by
  unfold SetNumberOfMOs
  split_ifs
  · exact ⟨rfl, rfl, fun x hx => Or.inl hx⟩
  · refine ⟨rfl, rfl, fun x hx => Or.inl ?_⟩
    simp only [Modified_MOs, setMOs_MOs] at hx
    exact List.mem_of_mem_take hx
  · split
    · exact ⟨rfl, rfl, fun x hx => Or.inl hx⟩
    · refine ⟨rfl, rfl, fun x hx => ?_⟩
      simp only [Modified_MOs, setMOs_MOs, pushNulls_eq, List.mem_append] at hx
      rcases hx with hx | hx
      · exact Or.inl hx
      · exact Or.inr (List.eq_of_mem_replicate hx)

theorem RegisterIfSet_frame (p : ImagePtr) (s : State) :
    (RegisterIfSet p s).heap.length = s.heap.length ∧ (RegisterIfSet p s).self = s.self := by
  cases p <;> simp [RegisterIfSet, Register, adjustRef_length]

theorem UnRegisterIfSet_frame (p : ImagePtr) (s : State) :
    (UnRegisterIfSet p s).heap.length = s.heap.length ∧ (UnRegisterIfSet p s).self = s.self := by
  cases p <;> simp [UnRegisterIfSet, UnRegister, adjustRef_length]

theorem setMO_store_frame (i : Int) (g : ImagePtr) (s : State) :
    (SetMO.store i g s).2.heap.length = s.heap.length ∧
    (SetMO.store i g s).2.self.ElectronDensity = s.self.ElectronDensity ∧
    (∀ x ∈ (SetMO.store i g s).2.self.MOs, x ∈ s.self.MOs ∨ x = g) := by
  unfold SetMO.store
  split
  · exact ⟨rfl, rfl, fun x hx => Or.inl hx⟩
  · split_ifs
    · exact ⟨rfl, rfl, fun x hx => Or.inl hx⟩
    · refine ⟨?_, ?_, fun x hx => ?_⟩
      · simp only [Modified_heap, (UnRegisterIfSet_frame _ _).1, (RegisterIfSet_frame _ _).1,
          setMOs_heap]
      · simp only [Modified_density, (UnRegisterIfSet_frame _ _).2, (RegisterIfSet_frame _ _).2,
          setMOs_density]
      · simp only [Modified_MOs, (UnRegisterIfSet_frame _ _).2, (RegisterIfSet_frame _ _).2,
          setMOs_MOs] at hx
        exact List.mem_or_eq_of_mem_set hx

theorem setMO_frame (i : Int) (g : ImagePtr) (s : State) :
    (SetMO i g s).2.heap.length = s.heap.length ∧
    (SetMO i g s).2.self.ElectronDensity = s.self.ElectronDensity ∧
    (∀ x ∈ (SetMO i g s).2.self.MOs, x ∈ s.self.MOs ∨ x = none ∨ x = g) := by
  unfold SetMO
  split_ifs
  · have h1 := setNumberOfMOs_frame i s
    split
    · rename_i e s1 heq
      rw [heq] at h1
      exact ⟨by rw [h1.1], h1.2.1, fun x hx => by
        rcases h1.2.2 x hx with h | h
        · exact Or.inl h
        · exact Or.inr (Or.inl h)⟩
    · rename_i u s1 heq
      rw [heq] at h1
      have h2 := setMO_store_frame i g s1
      refine ⟨by rw [h2.1, h1.1], by rw [h2.2.1, h1.2.1], fun x hx => ?_⟩
      rcases h2.2.2 x hx with h | h
      · rcases h1.2.2 x h with h3 | h3
        · exact Or.inl h3
        · exact Or.inr (Or.inl h3)
      · exact Or.inr (Or.inr h)
  · have h2 := setMO_store_frame i g s
    exact ⟨h2.1, h2.2.1, fun x hx => by
      rcases h2.2.2 x hx with h | h
      · exact Or.inl h
      · exact Or.inr (Or.inr h)⟩

theorem setVoxels_length (vs : List Int) (g : GridId) (h : List vtkImageData) :
    (setVoxels vs g h).length = h.length := by
  induction h generalizing g with
  | nil => cases g <;> rfl
  | cons o os ih =>
    cases g with
    | zero => rfl
    | succ g => simp [setVoxels, ih]

/-- One step of the copy keeps the destination apart from the source: the
table of objects only grows, and every pointer of the destination is an old
one, `NULL`, or the object `new` that the source does not hold. -/
theorem apart_step (source : Container) (s t : State) (new : GridId)
    (hheap : s.heap.length ≤ t.heap.length)
    (hMOs : ∀ x ∈ t.self.MOs, x ∈ s.self.MOs ∨ x = none ∨ x = some new)
    (hED : t.self.ElectronDensity = s.self.ElectronDensity ∨
      t.self.ElectronDensity = some new)
    (hnew : new ∉ source.grids)
    (hs : ¬ sharesGrid s.self source ∧ ∀ g ∈ source.grids, g < s.heap.length) :
    ¬ sharesGrid t.self source ∧ ∀ g ∈ source.grids, g < t.heap.length := by
  obtain ⟨hapart, hvalid⟩ := hs
  refine ⟨?_, fun g hg => Nat.lt_of_lt_of_le (hvalid g hg) hheap⟩
  rintro ⟨g, hgt, hgs⟩
  rw [mem_grids] at hgt
  rcases hgt with hm | hd
  · rcases hMOs _ hm with h | h | h
    · exact hapart ⟨g, (mem_grids _ _).mpr (Or.inl h), hgs⟩
    · cases h
    · cases h
      exact hnew hgs
  · rcases hED with h | h
    · rw [h] at hd
      exact hapart ⟨g, (mem_grids _ _).mpr (Or.inr hd), hgs⟩
    · rw [h] at hd
      cases hd
      exact hnew hgs

theorem deepCopy_loop_apart (source : Container) (k i : Nat) (s : State)
    (hs : ¬ sharesGrid s.self source ∧ ∀ g ∈ source.grids, g < s.heap.length) :
    ¬ sharesGrid (DeepCopy.loop source k i s).2.self source ∧
      ∀ g ∈ source.grids, g < (DeepCopy.loop source k i s).2.heap.length := by
  induction k generalizing i s with
  | zero => exact hs
  | succ k ih =>
    unfold DeepCopy.loop
    split
    · exact hs
    · exact ih _ _ hs
    · have hnew : (vtkNew s).1 ∉ source.grids := fun h => Nat.lt_irrefl _ (hs.2 _ h)
      have hfr := setMO_frame (i : Int) (some (vtkNew s).1)
        (ImageDeepCopy (vtkNew s).1 ‹GridId› (vtkNew s).2)
      have hlen : (ImageDeepCopy (vtkNew s).1 ‹GridId› (vtkNew s).2).heap.length
          = s.heap.length + 1 := by
        simp [ImageDeepCopy, vtkNew, setVoxels_length]
      have hstep : ∀ t : State,
          t = (SetMO (i : Int) (some (vtkNew s).1)
            (ImageDeepCopy (vtkNew s).1 ‹GridId› (vtkNew s).2)).2 →
          (¬ sharesGrid (UnRegister (vtkNew s).1 t).self source ∧
            ∀ g ∈ source.grids, g < (UnRegister (vtkNew s).1 t).heap.length) := by
        intro t ht
        subst ht
        refine apart_step source s _ (vtkNew s).1 ?_ hfr.2.2 (Or.inl hfr.2.1) hnew hs
        simp only [UnRegister, adjustRef_length, hfr.1, hlen]
        omega
      dsimp only
      split
      · rename_i e s2 heq
        exact hstep s2 (by rw [heq])
      · rename_i u s2 heq
        exact ih _ _ (hstep s2 (by rw [heq]))

end VTK

namespace VTK

open vtkProgrammableElectronicData

/-! ## `DeepCopy` and the release of dropped slots -/

theorem setElectronDensity_frame (d : ImagePtr) (s : State) :
    (SetElectronDensity d s).heap.length = s.heap.length ∧
    (SetElectronDensity d s).self.MOs = s.self.MOs ∧
    (SetElectronDensity d s).self.ElectronDensity = d := by
  unfold SetElectronDensity
  split_ifs with h
  · exact ⟨rfl, rfl, h⟩
  · simp only [Modified_heap, Modified_MOs, Modified_density, (UnRegisterIfSet_frame _ _).1,
      (UnRegisterIfSet_frame _ _).2, (RegisterIfSet_frame _ _).1, (RegisterIfSet_frame _ _).2,
      and_self]

/-- C1 (the code at the failing inputs): with the source slots
`[NULL, grid 0]` the copy returns normally with the source's count 2, but the
duplicate of the slot-2 grid lands in slot 1 of the destination and slot 2
stays `NULL`; with the source slots `[grid 0]` the copy is cut short by
`std::out_of_range` from `SetMO(0, ..)` and slot 1 of the destination stays
`NULL`. -/
theorem deepCopy_misplaces_orbitals :
    (DeepCopy (.programmableElectronicData Fixture.secondSlotSource) Fixture.emptyDest).1
      = .ok () ∧
    GetNumberOfMOs
      (DeepCopy (.programmableElectronicData Fixture.secondSlotSource) Fixture.emptyDest).2 = 2 ∧
    Fixture.secondSlotSource.MOs.get? 1 = some (some 0) ∧
    (DeepCopy (.programmableElectronicData Fixture.secondSlotSource) Fixture.emptyDest).2.self.MOs
      = [some 1, none] ∧
    (DeepCopy (.programmableElectronicData Fixture.firstSlotSource) Fixture.emptyDest).1
      = .error .out_of_range ∧
    (DeepCopy (.programmableElectronicData Fixture.firstSlotSource) Fixture.emptyDest).2.self.MOs
      = [none] :=
  ⟨by rfl, by rfl, by rfl, by rfl, by rfl, by rfl⟩

/-- C2 (the code at the failing input): shrinking a one-slot container to
zero slots drops the slot, calls `Modified` and nothing else: no `UnRegister`
is issued and the reference count of the dropped grid is still 1. -/
theorem setNumberOfMOs_shrink_keeps_reference :
    (SetNumberOfMOs 0 Fixture.oneSlot).1 = .ok () ∧
    (SetNumberOfMOs 0 Fixture.oneSlot).2.self.MOs = [] ∧
    (SetNumberOfMOs 0 Fixture.oneSlot).2.trace = [Event.Modified] ∧
    refCount Fixture.oneSlot.heap 0 = 1 ∧
    refCount (SetNumberOfMOs 0 Fixture.oneSlot).2.heap 0 = 1 :=
  ⟨by rfl, by rfl, by rfl, by rfl, by rfl⟩

/-- C8 (the code at the failing input): the source has an empty orbital slot
and grid 0 as density, the destination holds the same grid 0 in its orbital
slot; the copy returns normally without clearing that slot, so the
destination still stores grid 0, an object the source stores too. -/
theorem deepCopy_can_leave_shared_grid :
    (DeepCopy (.programmableElectronicData Fixture.densitySource) Fixture.sharingDest).1
      = .ok () ∧
    sharesGrid
      (DeepCopy (.programmableElectronicData Fixture.densitySource) Fixture.sharingDest).2.self
      Fixture.densitySource :=
  ⟨by rfl, by decide⟩

/-- X4: when every grid of the source is an allocated object and
the destination stores no grid object of the source before the call, then in
the state `DeepCopy(source)` leaves behind no grid object stored in an orbital
slot or the density slot of the destination is an object stored in an orbital
slot or the density slot of the source. -/
theorem deepCopy_stays_unshared (source : Container) (s : State)
    (hvalid : ∀ g ∈ source.grids, g < s.heap.length)
    (hapart : ¬ sharesGrid s.self source) :
    ¬ sharesGrid (DeepCopy (.programmableElectronicData source) s).2.self source := by
  have hfresh : ∀ t : State, (∀ g ∈ source.grids, g < t.heap.length) →
      t.heap.length ∉ source.grids := fun t ht h => Nat.lt_irrefl _ (ht _ h)
  have h1 : ¬ sharesGrid
      ({ s with self := { s.self with NumberOfElectrons := source.NumberOfElectrons } } : State).self
        source ∧
      ∀ g ∈ source.grids, g <
        ({ s with self := { s.self with NumberOfElectrons := source.NumberOfElectrons } }
          : State).heap.length :=
    ⟨hapart, hvalid⟩
  have hfr := setNumberOfMOs_frame (source.MOs.length : Int)
    { s with self := { s.self with NumberOfElectrons := source.NumberOfElectrons } }
  have h2 := apart_step source _ _ s.heap.length (le_of_eq (congrArg List.length hfr.1.symm))
    (fun x hx => (hfr.2.2 x hx).elim Or.inl (fun h => Or.inr (Or.inl h)))
    (Or.inl hfr.2.1) (hfresh s hvalid) h1
  unfold DeepCopy
  dsimp only
  split
  · rename_i e s2 heq
    rw [heq] at h2
    exact h2.1
  · rename_i u s2 heq
    rw [heq] at h2
    have h3 := deepCopy_loop_apart source source.MOs.length 0 s2 h2
    split
    · rename_i e s3 heq3
      rw [heq3] at h3
      exact h3.1
    · rename_i u3 s3 heq3
      rw [heq3] at h3
      split
      · exact h3.1
      · rename_i density hd
        have hfe := setElectronDensity_frame (some (vtkNew s3).1)
          (ImageDeepCopy (vtkNew s3).1 density (vtkNew s3).2)
        refine (apart_step source s3 _ (vtkNew s3).1 ?_ ?_ ?_ (hfresh s3 h3.2) h3).1
        · have hlen : (ImageDeepCopy (vtkNew s3).1 density (vtkNew s3).2).heap.length
              = s3.heap.length + 1 := by
            simp [ImageDeepCopy, vtkNew, setVoxels_length]
          simp only [UnRegister, adjustRef_length, hfe.1, hlen]
          omega
        · intro x hx
          simp only [UnRegister, hfe.2.1] at hx
          exact Or.inl hx
        · exact Or.inr hfe.2.2

/-- Witness for X4: a fresh destination and a source holding two live
grids. -/
theorem deepCopy_stays_unshared_witness :
    (∀ g ∈ Fixture.fullSource.grids, g < Fixture.freshDest.heap.length) ∧
    ¬ sharesGrid Fixture.freshDest.self Fixture.fullSource ∧
    ¬ sharesGrid
      (DeepCopy (.programmableElectronicData Fixture.fullSource) Fixture.freshDest).2.self
      Fixture.fullSource :=
  ⟨by decide, by decide,
    deepCopy_stays_unshared Fixture.fullSource Fixture.freshDest (by decide) (by decide)⟩

end VTK

namespace VTK

open vtkOpenQubeMoleculeSource

/-! ## The molecule importer -/

theorem modifyAtom_last (f : AtomData → AtomData) (l : List AtomData) (a : AtomData) :
    vtkMolecule.modifyAtom f l.length (l ++ [a]) = l ++ [f a] := by
  induction l with
  | nil => rfl
  | cons b bs ih => simp [vtkMolecule.modifyAtom, ih]

/-- The atom sequence the copy loop appends for source atoms `i .. i+k-1`. -/
theorem copy_loop_eq (oqmol : OQMolecule) (k i : Nat) (mol : vtkMolecule) :
    CopyOQMoleculeToVtkMolecule.loop oqmol k i mol =
      { mol with Atoms := mol.Atoms ++ (List.range' i k).map (fun j =>
          { Position := oqmol.atomPos j, AtomicNumber := oqmol.atomAtomicNumber j }) } := by
  induction k generalizing i mol with
  | zero => simp [CopyOQMoleculeToVtkMolecule.loop]
  | succ k ih =>
    unfold CopyOQMoleculeToVtkMolecule.loop
    simp only [ih, vtkMolecule.AddAtom, vtkMolecule.SetPosition, vtkMolecule.SetAtomicNumber,
      modifyAtom_last, List.range'_succ, List.map_cons, List.append_assoc, List.singleton_append]

/-- C9: whatever the destination molecule held, after
`CopyOQMoleculeToVtkMolecule` it has exactly as many atoms as the source,
atom `j` carries the position and the atomic number of source atom `j`, in
the same order, and it has no bonds. -/
theorem copyOQMolecule_atoms_in_order (oqmol : OQMolecule) (mol : vtkMolecule) :
    (CopyOQMoleculeToVtkMolecule oqmol mol).Atoms.length = oqmol.numAtoms ∧
    (∀ j : Nat, j < oqmol.numAtoms →
      (CopyOQMoleculeToVtkMolecule oqmol mol).Atoms.get? j =
        some { Position := oqmol.atomPos j, AtomicNumber := oqmol.atomAtomicNumber j }) ∧
    (CopyOQMoleculeToVtkMolecule oqmol mol).Bonds = [] := by
  unfold CopyOQMoleculeToVtkMolecule
  rw [copy_loop_eq]
  simp only [vtkMolecule.Initialize, List.nil_append, List.length_map, List.length_range',
    true_and, and_true]
  intro j hj
  rw [List.get?_eq_getElem?, List.getElem?_map, List.getElem?_range' _ _ hj]
  simp

/-- C10 (the code at the failing input): no basis-set handle, file name
`a.out`, a basis file is matched, and loading it yields a null handle;
`RequestData` goes on to `basisSet->moleculeRef()` on the null pointer
instead of returning with the output molecule as it was. -/
theorem requestData_load_failure_dereferences_null :
    Fixture.failingLoader.MatchBasisSet "a.out" = "a.aux" ∧
    Fixture.failingLoader.LoadBasisSet "a.aux" = none ∧
    RequestData Fixture.failingLoader { BasisSet := none, FileName := some "a.out" }
      (some Fixture.oldOutput) = .error .nullBasisSetDereference :=
  ⟨by rfl, by rfl, by rfl⟩

end VTK

namespace VTK

open vtkProgrammableElectronicData vtkOpenQubeMoleculeSource

/-! ## Further properties of the code -/

/-- X1: with no basis-set handle and either no file name or a file name for
which no basis file is matched, `RequestData` returns 1 with the output
molecule exactly as it was and issues one message. -/
theorem requestData_guarded_failures_keep_output (oq : OpenQube) (src : MoleculeSource)
    (out : vtkMolecule) (hb : src.BasisSet = none)
    (hf : src.FileName = none ∨
      ∃ f, src.FileName = some f ∧ (oq.MatchBasisSet f).isEmpty = true) :
    ∃ m, RequestData oq src (some out) = .ok { ret := 1, output := some out, messages := [m] } := by
  unfold RequestData
  rcases hf with hf | ⟨f, hf, hm⟩
  · exact ⟨.noFileNameOrBasisSet, by simp [hb, hf]⟩
  · exact ⟨.noMatchingBasisSet f, by simp [hb, hf, hm]⟩

/-- Witness for X1: the file `b.out` has no matching basis file. -/
theorem requestData_guarded_failures_keep_output_witness :
    (Fixture.failingLoader.MatchBasisSet "b.out").isEmpty = true ∧
    ∃ m, RequestData Fixture.failingLoader { BasisSet := none, FileName := some "b.out" }
      (some Fixture.oldOutput)
        = .ok { ret := 1, output := some Fixture.oldOutput, messages := [m] } :=
  ⟨by rfl, requestData_guarded_failures_keep_output Fixture.failingLoader
    { BasisSet := none, FileName := some "b.out" } Fixture.oldOutput rfl
    (Or.inr ⟨"b.out", rfl, by rfl⟩)⟩

/-- X2: `SetNumberOfMOs` never touches a reference count: for every size and
state the object table is unchanged and the trace gains at most one
`Modified`, so no `UnRegister` is ever issued by it. -/
theorem setNumberOfMOs_never_unregisters (n : Int) (s : State) :
    (SetNumberOfMOs n s).2.heap = s.heap ∧
    ((SetNumberOfMOs n s).2.trace = s.trace ∨
      (SetNumberOfMOs n s).2.trace = s.trace ++ [Event.Modified]) := by
  unfold SetNumberOfMOs
  split_ifs
  · exact ⟨rfl, Or.inl rfl⟩
  · exact ⟨rfl, Or.inr rfl⟩
  · split
    · exact ⟨rfl, Or.inl rfl⟩
    · exact ⟨rfl, Or.inr rfl⟩

/-- X3: `DeepCopy` from a data object that is not a
`vtkProgrammableElectronicData` reports an error and changes nothing else. -/
theorem deepCopy_other_kind_reports_error (s : State) :
    DeepCopy .other s = (.ok (), { s with trace := s.trace ++ [Event.Error] }) := rfl

end VTK

namespace VTK

open vtkProgrammableElectronicData TestMoleculeSelection

/-! ## The selection test and index zero -/

/-- X5: the molecule of the test has 16 atoms and 24 bonds; an atom index
below 16 is one of 0, 1, 4, 5 exactly when both its x and y coordinate are 0
or 1, a bond index below 24 is one of 0, 1, 3, 4, 12, 13, 16, 17 exactly when
one of its end atoms is such an atom; the check of the test returns
`EXIT_SUCCESS` on these two ascending sequences and `EXIT_FAILURE` on empty
arrays. -/
theorem test_molecule_quadrant_indices :
    molecule.Atoms.length = 16 ∧ molecule.Bonds.length = 24 ∧
    (∀ i < 16, i ∈ [0, 1, 4, 5] ↔ atomInQuadrant molecule i = true) ∧
    (∀ j < 24, j ∈ [0, 1, 3, 4, 12, 13, 16, 17] ↔
      ∃ b ∈ molecule.Bonds.get? j,
        b.BeginAtomId ∈ [0, 1, 4, 5] ∨ b.EndAtomId ∈ [0, 1, 4, 5]) ∧
    (∀ j < 24, j ∈ [0, 1, 3, 4, 12, 13, 16, 17] ↔ bondTouchesQuadrant molecule j = true) ∧
    List.Pairwise (fun a b => a < b) [0, 1, 4, 5] ∧
    List.Pairwise (fun a b => a < b) [0, 1, 3, 4, 12, 13, 16, 17] ∧
    verifyPick { atomIds := [0, 1, 4, 5], bondIds := [0, 1, 3, 4, 12, 13, 16, 17],
                 calls := [], cerr := [] } = EXIT_SUCCESS ∧
    verifyPick { atomIds := [], bondIds := [], calls := [], cerr := [] } = EXIT_FAILURE :=
  ⟨by decide, by decide, by decide, by decide, by decide, by decide, by decide, by decide,
    by decide⟩

/-- C12: `Execute` calls the hardware selection and the selection mapper, in
that order and once each, exactly when the collection of the area picker is
not empty; with an empty collection it makes no call and leaves `atomIds`,
`bondIds` and everything else as they were. -/
theorem execute_exact_pick_iff_candidates (scene : PickScene) (st : PickState) :
    (Execute scene st).calls = st.calls ++
      (if scene.NumberOfItems ≠ 0 then
        [PickCall.Select scene.PickX1 scene.PickY1 scene.PickX2 scene.PickY2,
         PickCall.GetSelectedAtomsAndBonds
           (scene.Select scene.PickX1 scene.PickY1 scene.PickX2 scene.PickY2)]
      else []) ∧
    (scene.NumberOfItems ≠ 0 →
      ((Execute scene st).atomIds, (Execute scene st).bondIds) =
        vtkMoleculeMapper.GetSelectedAtomsAndBonds scene.mol
          (scene.Select scene.PickX1 scene.PickY1 scene.PickX2 scene.PickY2)) ∧
    (scene.NumberOfItems = 0 → Execute scene st = st) := by
  unfold Execute dumpMolSelection
  by_cases h : scene.NumberOfItems = 0
  · simp [h]
  · simp [h]

/-- C13: for every container state and every pointer `g`, `GetMO(0)` and
`SetMO(0, g)` pass the test `orbitalNumber > size`, reach
`MOs->at(0 - 1)` and leave by `std::out_of_range`: no warning, no `NULL`
result, no growth; the state after the failure (slots, count, reference
counts, modification time, trace) is the state before. -/
theorem orbital_zero_fails_in_vector_access (s : State) (g : ImagePtr) :
    idGtSize 0 s.self.MOs.length = false ∧
    vecAt s.self.MOs ((0 : Int) - 1) = .error .out_of_range ∧
    GetMO 0 s = (.error .out_of_range, s) ∧
    SetMO 0 g s = (.error .out_of_range, s) := by
  have h1 : idGtSize 0 s.self.MOs.length = false := by
    simp [idGtSize]
  have h2 : vecAt s.self.MOs ((0 : Int) - 1) = .error .out_of_range := by
    simp [vecAt]
  refine ⟨h1, h2, ?_, ?_⟩
  · unfold GetMO
    rw [h1, h2]
    simp
  · unfold SetMO SetMO.store
    rw [h1, h2]
    simp

end VTK
